import Mathlib

/-!
Verification development for the SolTipBreakout bots-server repository.

The definitions below are a shallow embedding of the TypeScript sources:

* `src/src/commands/processor.ts`   — `processCommand`, the verification-code
  map for private-key export, and the command dispatch chain;
* `src/src/blockchain/solana-service.ts` — `validatePlatform`, the token
  registry, `getUserWallet`, `getWalletBalance`, `executeTransaction` and its
  error translation;
* `src/src/bots/telegram.ts`        — `normalizeCommand` and the `bot.on`
  text route with its private-chat guard for key export.

Modelling conventions:

* JavaScript numbers are modelled as exact rationals (`ℚ`); `parseFloat` is
  modelled with exact decimal semantics (NaN and signed Infinity are explicit
  constructors of `JsNum`).  Claims proved here compare signs and decimal
  thresholds only, which float rounding does not affect at the inputs used.
* Asynchronous remote calls are modelled by an oracle (`Env`) supplying each
  call's outcome, plus an explicit trace (`List LedgerCall`) of the remote
  calls a computation performs, in order.
* The verification-code `Map` and the pending `setTimeout` deletions are the
  state `ProcState`; timers due at or before the current time fire when the
  next command is processed (`fireTimers`), which is how the single-threaded
  JS event loop interleaves them with command processing.
* Wall-clock time is milliseconds as `ℕ`.
* Locale- and float-formatting runtime functions (`toLocaleString`,
  `Number#toString`, `Date#toLocaleString`) are supplied by the oracle; the
  deterministic `toFixed(6)` is modelled exactly (`toFixed6`).
* The functions `exportWalletPrivateKey`, `getWalletTransactions` and
  `getUserProfile` are imported by the processor from the ledger client but
  their definitions are not part of the given sources; their outcomes are
  oracle fields of `Env` (shaped from how the processor consumes them).
-/

/-! ## Basic string machinery (JS `String#includes`, `split(/\s+/)`, `trim`) -/

/-- Boolean prefix test on character lists. -/
def chPrefixOf : List Char → List Char → Bool
  | [], _ => true
  | _ :: _, [] => false
  | a :: as, b :: bs => a == b && chPrefixOf as bs

/-- Boolean infix (substring occurrence) test on character lists. -/
def chInfixOf : List Char → List Char → Bool
  | p, [] => chPrefixOf p []
  | p, l@(_ :: t) => chPrefixOf p l || chInfixOf p t

/-- JS `s.includes(pat)`. -/
def strContains (s pat : String) : Bool :=
  chInfixOf pat.data s.data

/-- Splitting on runs of whitespace, accumulator style.  Models
`text.trim().split(/\s+/)` except that an all-whitespace input yields `[]`
rather than `[""]` (both are handled identically by the processor's
empty-command guard). -/
def splitWsAux : List Char → List Char → List String
  | [], acc => if acc.isEmpty then [] else [String.mk acc.reverse]
  | c :: cs, acc =>
    if c.isWhitespace then
      if acc.isEmpty then splitWsAux cs []
      else String.mk acc.reverse :: splitWsAux cs []
    else splitWsAux cs (c :: acc)

/-- JS `text.trim().split(/\s+/)` (empty-token-free form, see `splitWsAux`). -/
def splitWs (s : String) : List String :=
  splitWsAux s.data []

/-- JS `String#trim`. -/
def jsTrim (s : String) : String :=
  String.mk (((s.data.dropWhile Char.isWhitespace).reverse.dropWhile Char.isWhitespace).reverse)

/-- JS `x || d` for an optional string (`undefined` and `""` are falsy). -/
def jsOr (s : Option String) (d : String) : String :=
  match s with
  | some v => if v = "" then d else v
  | none => d

/-- JS `String#toLowerCase`, character-wise (commands and platform values
are ASCII; the embedding lowers per character). -/
def strLower (s : String) : String :=
  String.mk (s.data.map Char.toLower)

/-- JS `String#toUpperCase`, character-wise. -/
def strUpper (s : String) : String :=
  String.mk (s.data.map Char.toUpper)

/-- Decimal digits of a natural number, most significant first
(fuel-structured so the kernel can evaluate it; `n + 1` fuel always
suffices since `n / 10 < n` for `n ≥ 10`). -/
def natDigitsAux : ℕ → ℕ → List Char
  | _, 0 => []
  | n, fuel + 1 =>
    if n < 10 then [Char.ofNat (48 + n)]
    else natDigitsAux (n / 10) fuel ++ [Char.ofNat (48 + n % 10)]

/-- Decimal digits of a natural number, most significant first. -/
def natDigits (n : ℕ) : List Char :=
  natDigitsAux n (n + 1)

/-- Decimal rendering of a natural number. -/
def natStr (n : ℕ) : String :=
  String.mk (natDigits n)

/-- Fraction part padded with leading zeros to six digits. -/
def pad6 (n : ℕ) : String :=
  String.mk (List.replicate (6 - (natDigits n).length) '0') ++ natStr n

/-- JS `Number#toFixed(6)` on an exact rational: round the absolute value to
the nearest multiple of `10⁻⁶` (half away from zero, computed on the reduced
numerator and denominator:
`(2·|num|·10⁶ + den) / (2·den) = ⌊|q|·10⁶ + 1/2⌋`) and print sign, integer
part, and six fraction digits. -/
def toFixed6 (q : ℚ) : String :=
  let n : ℕ := (2 * (q.num.natAbs * 1000000) + q.den) / (2 * q.den)
  (if q.num < 0 then "-" else "") ++ natStr (n / 1000000) ++ "." ++ pad6 (n % 1000000)

/-- A JS number as produced by `parseFloat`. -/
inductive JsNum
  | nan
  | inf (neg : Bool)
  | num (q : ℚ)
deriving DecidableEq

/-- Value of a digit run. -/
def digitsVal (l : List Char) : ℕ :=
  l.foldl (fun n c => 10 * n + (c.toNat - 48)) 0

/-- JS `parseFloat`: skip leading whitespace, optional sign, then the longest
prefix that is `Infinity` or `digits [. digits] [e [sign] digits]`; anything
else is NaN.  Exact rational semantics (see the header note on floats). -/
def jsParseFloat (s : String) : JsNum :=
  let l := s.data.dropWhile Char.isWhitespace
  let signAndRest : Bool × List Char :=
    match l with
    | '-' :: r => (true, r)
    | '+' :: r => (false, r)
    | r => (false, r)
  let neg := signAndRest.1
  let l := signAndRest.2
  if chPrefixOf "Infinity".data l then JsNum.inf neg
  else
    let ip := l.takeWhile Char.isDigit
    let l1 := l.dropWhile Char.isDigit
    let fpAndRest : List Char × List Char :=
      match l1 with
      | '.' :: r => (r.takeWhile Char.isDigit, r.dropWhile Char.isDigit)
      | r => ([], r)
    let fp := fpAndRest.1
    let l2 := fpAndRest.2
    if ip.isEmpty && fp.isEmpty then JsNum.nan
    else
      let e : ℤ :=
        match l2 with
        | 'e' :: r | 'E' :: r =>
          let esignAndRest : Bool × List Char :=
            match r with
            | '-' :: rr => (true, rr)
            | '+' :: rr => (false, rr)
            | rr => (false, rr)
          let ed := esignAndRest.2.takeWhile Char.isDigit
          if ed.isEmpty then 0
          else if esignAndRest.1 then -(digitsVal ed : ℤ) else (digitsVal ed : ℤ)
        | _ => 0
      -- `sign · (ipdigits.fpdigits) · 10^e`, as an exact rational built from
      -- integer numerator and denominator
      let sgn : ℤ := if neg then -1 else 1
      let base : ℕ := digitsVal ip * 10 ^ fp.length + digitsVal fp
      JsNum.num (if 0 ≤ e then mkRat (sgn * (base * 10 ^ e.toNat : ℕ)) (10 ^ fp.length)
        else mkRat (sgn * base) (10 ^ fp.length * 10 ^ (-e).toNat))

/-- `parseFloat(cleanWords[i])` where the index may be out of range
(`parseFloat(undefined)` is NaN). -/
def jsParseFloatOpt : Option String → JsNum
  | none => JsNum.nan
  | some s => jsParseFloat s

/-- JS `isNaN(x)` for a parsed number. -/
def JsNum.isNaN : JsNum → Bool
  | .nan => true
  | _ => false

/-- JS `x <= 0` for a parsed number (false for NaN). -/
def JsNum.leZero : JsNum → Bool
  | .nan => false
  | .inf neg => neg
  | .num q => decide (q ≤ 0)

/-! ## solana-service.ts: platform validation and the token registry -/

/-- `validatePlatform` (solana-service.ts lines 31-42): lower-case the value;
anything outside the recognized set silently defaults to `"discord"`. -/
def validatePlatform (platform : String) : String :=
  let normalizedPlatform := strLower platform
  if ["twitter", "telegram", "discord"].contains normalizedPlatform then normalizedPlatform
  else "discord"

/-- Token registry entry: mint address and decimals. -/
structure TokenInfo where
  mint : String
  decimals : ℕ
deriving DecidableEq

/-- `TOKEN_REGISTRY` (solana-service.ts lines 92-121), as an ordered
association list. -/
def TOKEN_REGISTRY : List (String × TokenInfo) :=
  [("SOL", ⟨"So11111111111111111111111111111111111111112", 9⟩),
   ("USDC", ⟨"EPjFWdd5AufqSSqeM2qN1xzybapC8G4wEGGkZwyTDt1v", 6⟩),
   ("USDT", ⟨"Es9vMFrzaCERmJfrF4H2FYD4KCoNkY11McCe8BenwNYB", 6⟩),
   ("BTC", ⟨"9n4nbM75f5Ui33ZbPYXn59EwSgE8CGsHtAeTH5YFeJ9E", 6⟩),
   ("ETH", ⟨"2FPyTwcZLUg1MDrwsyoP4D6s1tM7hAkHYRjkNb5w6Pxk", 6⟩),
   ("SRM", ⟨"SRMuApVNdxXokk5GT7XD5cUUgXMBCoAz2LHeuAoKWRt", 6⟩),
   ("BONK", ⟨"DezXAZ8z7PnrnRJjz3wXBoRgixCa6xjnB7YaB1pPB263", 5⟩)]

/-- `getSupportedTokens`: the registry's keys. -/
def getSupportedTokens : List String :=
  TOKEN_REGISTRY.map Prod.fst

/-- `getTokenInfo` (solana-service.ts lines 139-161): upper-case the symbol,
look it up; a miss becomes the user-friendly error listing the supported
set (the internal registry-miss throw is immediately rewrapped by its own
catch into this message). -/
def getTokenInfo (tokenSymbol : String) : Except String TokenInfo :=
  match TOKEN_REGISTRY.lookup (strUpper tokenSymbol) with
  | some ti => Except.ok ti
  | none =>
    Except.error
      ("Token \x27" ++ tokenSymbol ++ "\x27 is not supported. Available tokens: "
        ++ String.intercalate ", " getSupportedTokens)

/-- `getTokenPrice` mock table (solana-service.ts lines 565-597). -/
def getTokenPrice (tokenSymbol : String) : Option ℚ :=
  List.lookup (strUpper tokenSymbol)
    [("SOL", (12542 : ℚ) / 100), ("USDC", 1), ("USDT", 1),
     ("BTC", (5985265 : ℚ) / 100), ("ETH", (317581 : ℚ) / 100),
     ("SRM", (32 : ℚ) / 100), ("BONK", (1234 : ℚ) / 100000000)]

/-! ## The ledger-client call trace and the remote oracle -/

/-- One outbound call to the remote ledger/wallet service, with the argument
values actually sent. -/
inductive LedgerCall
  | getWalletSocial (platform platformId : String)
  | getOrCreateWallet (platform platformId : String)
  | linkWallet (platform platformId walletPublicKey : String)
  | getBalance (walletAddress : String)
  | getTokenBalances (walletAddress : String)
  | sendSolToUser (senderPlatform senderPlatformId recipientPlatform recipientPlatformId : String)
      (amount : ℚ)
  | sendTokenToUser (senderPlatform senderPlatformId recipientPlatform recipientPlatformId
      tokenMint : String) (amount : ℚ) (decimals : ℕ)
  | exportPrivateKey (userId platform : String)
  | getWalletTransactions (walletAddress : String) (limit : ℕ)
  | getUserProfile (userId platform : String)
  | getTransaction (signature : String)
  | getAccountInfo (address : String)
  | networkStatus
deriving DecidableEq

/-- The platform-valued arguments carried by a ledger call. -/
def LedgerCall.platformArgs : LedgerCall → List String
  | .getWalletSocial p _ => [p]
  | .getOrCreateWallet p _ => [p]
  | .linkWallet p _ _ => [p]
  | .sendSolToUser sp _ rp _ _ => [sp, rp]
  | .sendTokenToUser sp _ rp _ _ _ _ => [sp, rp]
  | .exportPrivateKey _ p => [p]
  | .getUserProfile _ p => [p]
  | _ => []

/-- The `data` part of an axios error response, as inspected by the
transaction error translator. -/
structure RespData where
  message : Option String
  error : Option String
deriving DecidableEq

/-- A thrown JS error as the transaction pipeline inspects it: its `message`
and, for remote (axios) failures, the attached response data. -/
structure Exc where
  message : String
  response : Option RespData
deriving DecidableEq

/-- Result shape of the remote private-key export
(`exportWalletPrivateKey` is imported by the processor but not defined in the
given sources; this record is shaped from how the processor consumes it). -/
structure ExportRes where
  success : Bool
  privateKey : Option String
  error : Option String
deriving DecidableEq

/-- One entry of a wallet's transaction history as the `history` handler
consumes it (`getWalletTransactions` is not in the given sources). -/
structure TxRec where
  signature : String
  blockTime : Option ℕ
  status : String
  amount : Option ℚ
  tokenSymbol : Option String

/-- Wallet entry of a user profile. -/
structure PWallet where
  public_key : String
  label : Option String

/-- Social-account entry of a user profile. -/
structure PSocial where
  platform : String
  platform_id : String

/-- Transaction entry of a user profile. -/
structure PTx where
  block_time : Option ℕ
  status : String
  amount : ℚ
  token_symbol : Option String

/-- A user profile as the `profile` handler consumes it (`getUserProfile` is
not in the given sources). -/
structure Profile where
  wallets : List PWallet
  socialAccounts : List PSocial
  transactions : List PTx

/-- Parsed transaction details as `getTransactionDetails` returns them
(its prose-parsing of the remote reply is folded into the oracle). -/
structure TxInfo where
  status : String
  fee : ℚ
  blockTime : Option ℕ

/-- Parsed account info as `getAccountInfo` returns it. -/
structure AcctInfo where
  lamports : ℚ
  owner : String
  executable : Bool

/-- Parsed network status as `getNetworkStatus` returns it. -/
structure NetStatus where
  health : String
  currentEpoch : String
  blockHeight : String
  currentSlot : String

/-- The remote-world oracle: the outcome each remote call would produce, plus
the runtime's nondeterministic ingredients (random code generation,
locale/float formatting). -/
structure Env where
  /-- Outcome of `GET /api/user/wallet/social` (errors are swallowed to
  `none` by `getUserWallet` itself). -/
  walletSocial : String → String → Option String
  /-- Outcome of `POST /api/user/wallet/get-or-create`; an error is the
  thrown message. -/
  getOrCreate : String → String → Except String String
  /-- Outcome of `POST /api/user/wallet/link` (errors are swallowed to
  `false` by `linkUserWallet` itself). -/
  link : String → String → String → Bool
  /-- Outcome of `getWalletBalance`: the parsed SOL balance, or the message
  of the error it throws (its own wrapping of the remote failure). -/
  balance : String → Except String ℚ
  /-- Outcome of `getTokenBalances`: parsed `(symbol, amount)` rows, or the
  thrown message. -/
  tokenBalances : String → Except String (List (String × ℚ))
  /-- Outcome of `POST /api/mcp/tools/sendSolToUser`: parsed
  `(signature, walletCreated)`, or the thrown error. -/
  sendSol : String → String → String → String → ℚ → Except Exc (String × Bool)
  /-- Outcome of `POST /api/mcp/tools/sendTokenToUser`. -/
  sendToken : String → String → String → String → String → ℚ → ℕ → Except Exc (String × Bool)
  /-- Outcome of `exportWalletPrivateKey (userId, platform)` (not in the
  given sources); an error is a thrown exception. -/
  exportKey : String → String → Except String ExportRes
  /-- Outcome of `getWalletTransactions` (not in the given sources);
  `ok none` is a null result. -/
  transactions : String → ℕ → Except String (Option (List TxRec))
  /-- Outcome of `getUserProfile` (not in the given sources). -/
  profile : String → String → Except String (Option Profile)
  /-- Outcome of `getTransactionDetails`. -/
  txDetails : String → Except String TxInfo
  /-- Outcome of `getAccountInfo`. -/
  account : String → Except String AcctInfo
  /-- Outcome of `getNetworkStatus`. -/
  network : Except String NetStatus
  /-- Outcome (reply text and calls) of a send whose validated amount is
  `Infinity` — float-infinity arithmetic is outside the rational model, so
  the whole downstream behavior is oracle-supplied (sender, recipient,
  token). -/
  infinityOutcome : String → String → String → String × List LedgerCall
  /-- `crypto.randomInt(100000, 999999).toString()` at a given time. -/
  genCode : ℕ → String
  /-- JS number-to-string rendering (float formatting is a runtime detail). -/
  renderNum : ℚ → String
  /-- `new Date(ms).toLocaleString()`. -/
  formatDate : ℕ → String
  /-- `Number#toLocaleString` with the price options. -/
  localePrice : ℚ → String

/-! ## solana-service.ts: wallet lookup and the transaction pipeline -/

/-- `getUserWallet` (solana-service.ts lines 170-193): normalize the platform,
call the wallet-by-social endpoint; any failure is swallowed to `none`.
Returns the result together with the call it performs. -/
def getUserWallet (env : Env) (userId platform : String) :
    Option String × List LedgerCall :=
  let normalizedPlatform := validatePlatform platform
  (env.walletSocial normalizedPlatform userId,
   [LedgerCall.getWalletSocial normalizedPlatform userId])

/-- `getOrCreateUserWallet` (solana-service.ts lines 202-223). -/
def getOrCreateUserWallet (env : Env) (userId platform : String) :
    Except String String × List LedgerCall :=
  let normalizedPlatform := validatePlatform platform
  (env.getOrCreate normalizedPlatform userId,
   [LedgerCall.getOrCreateWallet normalizedPlatform userId])

/-- `linkUserWallet` (solana-service.ts lines 518-539): errors are swallowed
to `false`. -/
def linkUserWallet (env : Env) (userId platform walletPublicKey : String) :
    Bool × List LedgerCall :=
  let normalizedPlatform := validatePlatform platform
  (env.link normalizedPlatform userId walletPublicKey,
   [LedgerCall.linkWallet normalizedPlatform userId walletPublicKey])

/-- `getWalletBalance` (solana-service.ts lines 231-251): the oracle supplies
the parsed balance or the message of the error the function throws. -/
def getWalletBalance (env : Env) (walletAddress : String) :
    Except String ℚ × List LedgerCall :=
  (env.balance walletAddress, [LedgerCall.getBalance walletAddress])

/-- The fee buffer added to the requested amount before the native-asset
pre-flight balance check (`0.000005` SOL, solana-service.ts line 343). -/
def feeBuffer : ℚ := mkRat 5 1000000

/-- The locally-thrown insufficient-funds message (solana-service.ts
line 346). -/
def insufficientMsg (senderBalance requiredAmount : ℚ) : String :=
  "Insufficient funds. You have " ++ toFixed6 senderBalance
    ++ " SOL but need at least " ++ toFixed6 requiredAmount
    ++ " SOL (including fees)."

/-- The Solana debit-failure marker pattern matched by the error
translation. -/
def debitPat : String :=
  "Attempt to debit an account but found no record of a prior credit"

/-- The inner catch of the SOL branch (solana-service.ts lines 388-394):
rewrite a debit failure, rethrow anything else. -/
def innerSolCatch (e : Exc) : Exc :=
  if e.message ≠ "" ∧ strContains e.message debitPat = true then
    ⟨"Insufficient funds in sender wallet", none⟩
  else e

/-- Suffix of `l` after the first occurrence of `pat`, if any. -/
def afterSub : List Char → List Char → Option (List Char)
  | pat, [] => if pat.isEmpty then some [] else none
  | pat, l@(_ :: t) =>
    if chPrefixOf pat l then some (l.drop pat.length) else afterSub pat t

/-- The lazy capture `(.+?)\.`: at least one character, then everything up to
the first subsequent period. -/
def lazyDot : List Char → Option (List Char)
  | [] => none
  | c :: rest =>
    if rest.contains '.' then some (c :: rest.takeWhile (· != '.')) else none

/-- The capture of `/Transaction simulation failed: (.+?)\./` at the first
occurrence of the prefix (solana-service.ts line 475). -/
def simExtract (m : String) : Option String :=
  ((afterSub "Transaction simulation failed: ".data m.data).bind lazyDot).map String.mk

/-- The message thrown for an error with no usable response data
(solana-service.ts lines 491-506). -/
def localTxMsg (m : String) : String :=
  if m ≠ "" then
    if strContains m "Insufficient funds" then m
    else if strContains m "No wallet found" then m
    else "Transaction failed: " ++ m
  else "Transaction failed due to an unknown error"

/-- The outer catch of `executeTransaction` (solana-service.ts lines
450-507): translate a thrown error into the message the caller sees. -/
def translateTx (e : Exc) : String :=
  match e.response with
  | some rd =>
    match rd.message with
    | some serverMessage =>
      if strContains serverMessage debitPat then
        "Insufficient SOL in wallet to complete the transaction"
      else if strContains serverMessage "Transaction simulation failed" then
        if strContains serverMessage "would exceed maximum allowed stake delegation" then
          "Transaction would exceed maximum allowed stake delegation"
        else
          match simExtract serverMessage with
          | some s => "Transaction failed: " ++ s
          | none => "Transaction failed: " ++ serverMessage
      else "Transaction failed: " ++ serverMessage
    | none =>
      match rd.error with
      | some er => "Transaction failed: " ++ er
      | none => localTxMsg e.message
  | none => localTxMsg e.message

/-- The unknown-token message produced by the token branch's catch for ANY
failure inside that branch (solana-service.ts line 447). -/
def unknownTokenMsg (token : String) : String :=
  "Unknown token: " ++ token ++ ". Please use a supported token symbol."

/-- `executeTransaction` before its outer catch (solana-service.ts lines
308-449): input validation, sender-wallet resolution, then the SOL branch
(pre-flight balance check, `sendSolToUser`, inner debit-rewriting catch) or
the token branch (registry lookup, `sendTokenToUser`, with every failure in
the branch rewritten to the unknown-token error by its catch). -/
def executeTransactionCore (env : Env) (senderUsername recipientUsername : String)
    (amount : ℚ) (token platform : String) :
    Except Exc (String × Bool) × List LedgerCall :=
  if senderUsername = "" then (Except.error ⟨"Sender username is required", none⟩, [])
  else if recipientUsername = "" then (Except.error ⟨"Recipient username is required", none⟩, [])
  else if ¬ 0 < amount then (Except.error ⟨"Amount must be a positive number", none⟩, [])
  else
    let normalizedPlatform := validatePlatform platform
    let senderLookup := getUserWallet env senderUsername normalizedPlatform
    match senderLookup.1 with
    | none =>
      (Except.error ⟨"No wallet found for sender " ++ senderUsername
          ++ ". Please register or connect a wallet first.", none⟩,
       senderLookup.2)
    | some senderWallet =>
      if strUpper token = "SOL" then
        let balLookup := getWalletBalance env senderWallet
        match balLookup.1 with
        | Except.error e =>
          (Except.error (innerSolCatch ⟨e, none⟩), senderLookup.2 ++ balLookup.2)
        | Except.ok senderBalance =>
          let requiredAmount := amount + feeBuffer
          if senderBalance < requiredAmount then
            (Except.error (innerSolCatch ⟨insufficientMsg senderBalance requiredAmount, none⟩),
             senderLookup.2 ++ balLookup.2)
          else
            let call := LedgerCall.sendSolToUser normalizedPlatform senderUsername
              normalizedPlatform recipientUsername amount
            match env.sendSol normalizedPlatform senderUsername
                normalizedPlatform recipientUsername amount with
            | Except.ok r => (Except.ok r, senderLookup.2 ++ balLookup.2 ++ [call])
            | Except.error exc =>
              (Except.error (innerSolCatch exc), senderLookup.2 ++ balLookup.2 ++ [call])
      else
        match getTokenInfo token with
        | Except.error _ =>
          (Except.error ⟨unknownTokenMsg token, none⟩, senderLookup.2)
        | Except.ok tokenInfo =>
          let call := LedgerCall.sendTokenToUser normalizedPlatform senderUsername
            normalizedPlatform recipientUsername tokenInfo.mint amount tokenInfo.decimals
          match env.sendToken normalizedPlatform senderUsername normalizedPlatform
              recipientUsername tokenInfo.mint amount tokenInfo.decimals with
          | Except.ok r => (Except.ok r, senderLookup.2 ++ [call])
          | Except.error _ =>
            (Except.error ⟨unknownTokenMsg token, none⟩, senderLookup.2 ++ [call])

/-- `executeTransaction` (solana-service.ts lines 308-508): the core pipeline
with every thrown error translated by the outer catch. -/
def executeTransaction (env : Env) (senderUsername recipientUsername : String)
    (amount : ℚ) (token platform : String) :
    Except String (String × Bool) × List LedgerCall :=
  let r := executeTransactionCore env senderUsername recipientUsername amount token platform
  (r.1.mapError translateTx, r.2)

/-! ## processor.ts: state, configuration, normalization -/

/-- The platform of an inbound event (the processor's union type). -/
inductive Platform
  | twitter
  | telegram
  | discord
deriving DecidableEq

/-- The platform's string value (what the union's members are in JS). -/
def Platform.str : Platform → String
  | .twitter => "twitter"
  | .telegram => "telegram"
  | .discord => "discord"

/-- The environment-derived configuration the processor interpolates into
mention filters and replies. -/
structure Config where
  twitterBot : String
  telegramBot : String
  discordId : String
  appUrl : String
  explorerUrl : String

/-- The mutable state of the processor module: the
`privateKeyVerificationCodes` map (processor.ts line 9) and the pending
`setTimeout` deletions scheduled at issuance (lines 411-414), as
`(key, fireTime)` pairs. -/
structure ProcState where
  codes : List (String × String)
  timers : List (String × ℕ)
deriving DecidableEq

/-- The map key `` `${platform}:${senderUsername}` ``. -/
def codeKey (platform : Platform) (senderUsername : String) : String :=
  platform.str ++ ":" ++ senderUsername

/-- Whether some pending timer for key `k` is due at or before `now`. -/
def dueKey (timers : List (String × ℕ)) (now : ℕ) (k : String) : Bool :=
  timers.any fun kt => decide (kt.2 ≤ now) && kt.1 == k

/-- Run every timer due at or before `now`: each deletes its key from the
map unconditionally (the `setTimeout` callback of lines 411-414 captures only
the key, so it also deletes a code that superseded the one it was scheduled
for).  Due timers are removed from the pending set. -/
def fireTimers (st : ProcState) (now : ℕ) : ProcState :=
  ⟨st.codes.filter fun kc => !dueKey st.timers now kc.1,
   st.timers.filter fun kt => !decide (kt.2 ≤ now)⟩

/-- `Map#delete`. -/
def eraseCode (codes : List (String × String)) (k : String) : List (String × String) :=
  codes.filter fun kc => kc.1 != k

/-- `Map#set` (lookup-equivalent form). -/
def setCode (codes : List (String × String)) (k c : String) : List (String × String) :=
  (k, c) :: eraseCode codes k

/-- The regex `/^\d{6}$/`. -/
def isSixDigits (s : String) : Bool :=
  s.length == 6 && s.data.all Char.isDigit

/-- The regex `/^[1-9A-HJ-NP-Za-km-z]{32,44}$/`, char class. -/
def isBase58Char (c : Char) : Bool :=
  ('1' ≤ c && c ≤ '9') || ('A' ≤ c && c ≤ 'H') || ('J' ≤ c && c ≤ 'N')
    || ('P' ≤ c && c ≤ 'Z') || ('a' ≤ c && c ≤ 'k') || ('m' ≤ c && c ≤ 'z')

/-- The wallet-address format check of the `connect` handler. -/
def isBase58Addr (s : String) : Bool :=
  decide (32 ≤ s.length) && decide (s.length ≤ 44) && s.data.all isBase58Char

/-- Whether a token survives the bot-mention filter (processor.ts lines
23-27): it must not contain any of the three configured mention forms. -/
def mentionFree (cfg : Config) (w : String) : Bool :=
  !strContains w ("@" ++ cfg.twitterBot)
    && !strContains w ("@" ++ cfg.telegramBot)
    && !strContains w ("<@" ++ cfg.discordId ++ ">")

/-- Tokenization plus mention filtering (processor.ts lines 20-27). -/
def cleanWords (cfg : Config) (text : String) : List String :=
  (splitWs text).filter (mentionFree cfg)

/-- The normalized command of the spec's data model: lower-cased keyword and
the remaining argument tokens; `none` is the sentinel "no command". -/
structure ParsedCommand where
  keyword : String
  args : List String
deriving DecidableEq

/-- Normalizer output for a raw text (keyword extraction over the filtered
tokens, processor.ts line 29). -/
def parseCommand (cfg : Config) (text : String) : Option ParsedCommand :=
  match cleanWords cfg text with
  | [] => none
  | w :: ws => some ⟨strLower w, ws⟩

/-- What one `processCommand` invocation produces: the reply string, the
post-invocation module state, and the trace of remote ledger calls made, in
order. -/
structure Outcome where
  reply : String
  state : ProcState
  calls : List LedgerCall

/-! ## processor.ts: reply strings -/

def promptMsg : String :=
  "Please enter a command. Type \x27help\x27 to see available commands."

def securityMsg : String :=
  "⚠️ For security reasons, this command is only available in private messages on Telegram."

def expiredMsg : String :=
  "⚠️ Verification code expired or not found. Please request a new code by typing \"export-privatekey\"."

def invalidCodeMsg : String :=
  "❌ Invalid verification code. Please try again with the correct code."

def exportConnectMsg : String :=
  "❌ You need to connect your wallet first. Visit our website to connect."

def invalidSendMsg : String :=
  "Invalid format. Use: send @recipient amount token"

def connectFirstMsg (cfg : Config) : String :=
  "You need to connect your wallet first. Use \"connect YOUR_WALLET_ADDRESS\" or visit "
    ++ cfg.appUrl ++ " to get started."

def unknownCmdMsg : String :=
  "Unknown command. Type \"help\" to see available commands."

/-- The issuance reply (processor.ts lines 417-432). -/
def issueMsg (verificationCode : String) : String :=
  "⚠️ **SECURITY WARNING** ⚠️\n\nYour private key is the master key to your wallet. Anyone with your private key can:\n- Steal all your tokens and NFTs\n- Make transactions on your behalf\n- Take complete control of your wallet\n\nNEVER share your private key with anyone. NEVER enter it on websites.\n\nYour verification code is: "
    ++ verificationCode
    ++ "\n\nTo proceed with exporting your private key, use this command:\nexport-privatekey "
    ++ verificationCode
    ++ "\n\nThe key will be sent to you and automatically deleted after 60 seconds.\nThis verification code will expire in 5 minutes."

/-- The private-key reply (processor.ts line 79). -/
def privateKeyMsg (key : String) : String :=
  "Your private key is: " ++ key
    ++ "\n\n⚠️ This message will self-destruct in 60 seconds for security."

/-- The help reply (processor.ts lines 435-459). -/
def helpMsg (platform : Platform) : String :=
  "🎮 *Available Commands* 🎮\n\n"
    ++ "✨ /register - Create a new custodial wallet\n"
    ++ "💸 /send @user amount [token] - Send tokens to another user\n"
    ++ "   (Supported tokens: " ++ String.intercalate ", " getSupportedTokens ++ ")\n"
    ++ "💰 /balance - Check your SOL balance\n"
    ++ "🪙 /tokens - List your token balances\n"
    ++ "ℹ️ /tokens-info - Show supported token details\n"
    ++ "📈 /price [token] - Check current token price\n"
    ++ "🔑 /address - Show your wallet address\n"
    ++ "📜 /history - View your recent transactions\n"
    ++ "👤 /profile - View your complete profile\n"
    ++ "🔌 /connect ADDRESS - Connect external wallet\n"
    ++ "🔍 /transaction SIGNATURE - Get transaction details\n"
    ++ "📝 /account ADDRESS - Get account information\n"
    ++ "🌐 /network - Check Solana network status"
    ++ (if platform = Platform.telegram then
        "\n🔐 /export-privatekey - Export wallet private key (requires verification code)"
      else "")
    ++ "\n❓ /help - Show this help message"

/-! ## processor.ts: the verified-export path and the dispatch chain -/

/-- JS first-occurrence `String#replace` on character lists. -/
def replaceFirstCh (pat repl : List Char) : List Char → List Char
  | [] => []
  | l@(c :: t) =>
    if chPrefixOf pat l then repl ++ l.drop pat.length
    else c :: replaceFirstCh pat repl t

/-- JS `s.replace(pat, repl)` (first occurrence only). -/
def replaceFirst (s pat repl : String) : String :=
  String.mk (replaceFirstCh pat.data repl.data s.data)

/-- JS truthiness of an optional block time (`undefined` and `0` are falsy). -/
def blockTimeIsSet : Option ℕ → Bool
  | some t => t != 0
  | none => false

/-- The verification-code path of export (processor.ts lines 47-87): look up
the stored code, reject a missing or mismatched one, otherwise delete the
code FIRST and only then resolve the wallet and call the remote export. -/
def exportVerify (env : Env) (st : ProcState) (platform : Platform)
    (senderUsername providedCode : String) : Outcome :=
  match st.codes.lookup (codeKey platform senderUsername) with
  | none => ⟨expiredMsg, st, []⟩
  | some expectedCode =>
    if providedCode ≠ expectedCode then ⟨invalidCodeMsg, st, []⟩
    else
      let st' : ProcState := ⟨eraseCode st.codes (codeKey platform senderUsername), st.timers⟩
      let wl := getUserWallet env senderUsername platform.str
      match wl.1 with
      | none => ⟨exportConnectMsg, st', wl.2⟩
      | some _ =>
        let call := LedgerCall.exportPrivateKey senderUsername platform.str
        match env.exportKey senderUsername platform.str with
        | Except.ok result =>
          if result.success then
            ⟨privateKeyMsg (result.privateKey.getD "undefined"), st', wl.2 ++ [call]⟩
          else
            ⟨"Failed to export private key: " ++ jsOr result.error "Unknown error",
             st', wl.2 ++ [call]⟩
        | Except.error _ =>
          ⟨"An error occurred while trying to export your private key.", st', wl.2 ++ [call]⟩

/-- One line of the `tokens-info` reply. -/
def tokenInfoLine (symbol : String) : String :=
  match getTokenInfo symbol with
  | Except.ok tokenInfo =>
    symbol ++ ": Mint address " ++ tokenInfo.mint.take 8 ++ "..."
      ++ tokenInfo.mint.takeRight 8 ++ ", Decimals: " ++ natStr tokenInfo.decimals ++ "\n"
  | Except.error _ => symbol ++ ": Information unavailable\n"

/-- One line of the `history` reply. -/
def historyLine (cfg : Config) (env : Env) (i : ℕ) (tx : TxRec) : String :=
  let date := if blockTimeIsSet tx.blockTime then
      env.formatDate ((tx.blockTime.getD 0) * 1000) else "Pending"
  let status := if tx.status = "success" then "✅" else "❌"
  let amount := match tx.amount with
    | some q => if q = 0 then "N/A" else env.renderNum q ++ " " ++ jsOr tx.tokenSymbol "SOL"
    | none => "N/A"
  natStr (i + 1) ++ ". " ++ status ++ " " ++ amount ++ " [" ++ date ++ "]\n   "
    ++ cfg.explorerUrl ++ "/tx/" ++ tx.signature ++ "\n"

/-- One transaction line of the `profile` reply. -/
def profileTxLine (env : Env) (i : ℕ) (tx : PTx) : String :=
  let date := if blockTimeIsSet tx.block_time then
      env.formatDate ((tx.block_time.getD 0) * 1000) else "Pending"
  let status := if tx.status = "confirmed" then "✅"
    else if tx.status = "failed" then "❌" else "⏳"
  natStr (i + 1) ++ ". " ++ status ++ " " ++ env.renderNum tx.amount ++ " "
    ++ jsOr tx.token_symbol "SOL" ++ " [" ++ date ++ "]\n"

/-- The `profile` reply body (processor.ts lines 354-386). -/
def profileMsg (env : Env) (pr : Profile) : String :=
  "📊 Your SolBreakout Profile:\n"
    ++ (match pr.wallets with
      | [] => ""
      | w :: _ =>
        "💼 Wallet: " ++ w.public_key ++ "\n🏷️ Label: " ++ jsOr w.label "No label" ++ "\n")
    ++ (if pr.socialAccounts.isEmpty then ""
      else "\n🔗 Linked accounts:\n"
        ++ String.join (pr.socialAccounts.map fun a =>
          "- " ++ a.platform ++ ": " ++ a.platform_id ++ "\n"))
    ++ (if pr.transactions.isEmpty then "\nNo recent transactions found."
      else "\n📝 Recent transactions:\n"
        ++ String.join (((pr.transactions.take 3).enum).map fun p => profileTxLine env p.1 p.2)
        ++ "\nUse \"history\" to see more transactions.")

/-- The else-if dispatch chain of `processCommand` (processor.ts lines
91-520), entered with the lower-cased keyword and the filtered token list.
`st` has already had due timers fired. -/
def dispatch (cfg : Config) (env : Env) (st : ProcState) (now : ℕ)
    (platform : Platform) (senderUsername command : String) (cw : List String) : Outcome :=
  if command = "send" ∨ command = "tip" then
    let recipientTag := cw.get? 1
    let amount := jsParseFloatOpt (cw.get? 2)
    let token := jsOr ((cw.get? 3).map strUpper) "SOL"
    if recipientTag.isNone || amount.isNaN || amount.leZero then
      ⟨invalidSendMsg, st, []⟩
    else
      let recipientUsername := replaceFirst (recipientTag.getD "") "@" ""
      let senderLookup := getUserWallet env senderUsername platform.str
      match senderLookup.1 with
      | none => ⟨connectFirstMsg cfg, st, senderLookup.2⟩
      | some _ =>
        match amount with
        | JsNum.num q =>
          let r := executeTransaction env senderUsername recipientUsername q token platform.str
          match r.1 with
          | Except.ok res =>
            let message := "Successfully sent " ++ env.renderNum q ++ " " ++ token
              ++ " to @" ++ recipientUsername ++ "!"
            let message := if res.2 then
                message ++ " A new wallet was automatically created for @" ++ recipientUsername ++ "."
              else message
            ⟨message ++ " Transaction: " ++ cfg.explorerUrl ++ "/" ++ res.1,
             st, senderLookup.2 ++ r.2⟩
          | Except.error emsg =>
            if strContains emsg "Insufficient funds" || strContains emsg "Insufficient SOL" then
              ⟨"❌ " ++ emsg, st, senderLookup.2 ++ r.2⟩
            else if strContains emsg "No wallet found" then
              ⟨"❌ " ++ emsg, st, senderLookup.2 ++ r.2⟩
            else
              ⟨"❌ Failed to send " ++ token ++ ". " ++ emsg, st, senderLookup.2 ++ r.2⟩
        | _ =>
          -- A validated non-finite amount can only be `Infinity`; its
          -- float-infinity downstream arithmetic is outside the rational
          -- model, so its outcome is supplied by the oracle.
          let r := env.infinityOutcome senderUsername recipientUsername token
          ⟨r.1, st, senderLookup.2 ++ r.2⟩
  else if command = "balance" then
    let wl := getUserWallet env senderUsername platform.str
    match wl.1 with
    | none => ⟨connectFirstMsg cfg, st, wl.2⟩
    | some userWallet =>
      let bl := getWalletBalance env userWallet
      match bl.1 with
      | Except.ok balance =>
        ⟨"Your SOL balance is " ++ env.renderNum balance ++ " SOL", st, wl.2 ++ bl.2⟩
      | Except.error e =>
        ⟨"Failed to get balance. Error: " ++ e, st, wl.2 ++ bl.2⟩
  else if command = "tokens" then
    let wl := getUserWallet env senderUsername platform.str
    match wl.1 with
    | none => ⟨connectFirstMsg cfg, st, wl.2⟩
    | some userWallet =>
      let call := LedgerCall.getTokenBalances userWallet
      match env.tokenBalances userWallet with
      | Except.ok tokens =>
        if tokens.isEmpty then
          ⟨"You don\x27t have any token balances yet.\nSupported tokens: "
            ++ String.intercalate ", " getSupportedTokens, st, wl.2 ++ [call]⟩
        else
          ⟨"Your token balances:\n"
            ++ String.intercalate "\n" (tokens.map fun t => t.1 ++ ": " ++ env.renderNum t.2),
           st, wl.2 ++ [call]⟩
      | Except.error e =>
        ⟨"Failed to get token balances. Error: " ++ e, st, wl.2 ++ [call]⟩
  else if command = "address" then
    let wl := getUserWallet env senderUsername platform.str
    match wl.1 with
    | none => ⟨connectFirstMsg cfg, st, wl.2⟩
    | some userWallet => ⟨"Your wallet address is: " ++ userWallet, st, wl.2⟩
  else if command = "register" then
    let wl := getUserWallet env senderUsername platform.str
    match wl.1 with
    | some existingWallet =>
      ⟨"You already have a wallet with address: " ++ existingWallet
        ++ ". Use \"balance\" to check your balance.", st, wl.2⟩
    | none =>
      let cr := getOrCreateUserWallet env senderUsername platform.str
      match cr.1 with
      | Except.ok newWalletAddress =>
        ⟨"Welcome to SolBreakout! ✨ A new custodial wallet has been created for you: "
          ++ newWalletAddress
          ++ "\n\nUse \"balance\" to check your balance or \"help\" to see all available commands.",
         st, wl.2 ++ cr.2⟩
      | Except.error e =>
        ⟨"Failed to register: " ++ e ++ ". Please try again later.", st, wl.2 ++ cr.2⟩
  else if command = "connect" then
    match cw.get? 1 with
    | none => ⟨"Invalid format. Use: connect YOUR_WALLET_ADDRESS", st, []⟩
    | some walletAddress =>
      if !isBase58Addr walletAddress then
        ⟨"Invalid wallet address format. Please provide a valid Solana wallet address.", st, []⟩
      else
        let wl := getUserWallet env senderUsername platform.str
        match wl.1 with
        | some existingWallet =>
          ⟨"You already have a connected wallet with address: " ++ existingWallet
            ++ ". \nTo use a different wallet, please contact support.", st, wl.2⟩
        | none =>
          let lk := linkUserWallet env senderUsername platform.str walletAddress
          if lk.1 then
            ⟨"Successfully connected wallet " ++ walletAddress ++ " to your "
              ++ platform.str ++ " account.", st, wl.2 ++ lk.2⟩
          else
            ⟨"Failed to connect wallet. Please try again later or contact support.",
             st, wl.2 ++ lk.2⟩
  else if command = "tokens-info" then
    ⟨"Supported tokens:\n" ++ String.join ((getSupportedTokens.take 5).map tokenInfoLine)
      ++ "\n...and " ++ natStr (getSupportedTokens.length - 5)
      ++ " more tokens. Use \"help\" for the full list.", st, []⟩
  else if command = "price" then
    let tokenSymbol := jsOr ((cw.get? 1).map strUpper) "SOL"
    if !getSupportedTokens.contains tokenSymbol then
      ⟨"Token " ++ tokenSymbol ++ " is not supported. Available tokens: "
        ++ String.intercalate ", " getSupportedTokens, st, []⟩
    else
      match getTokenPrice tokenSymbol with
      | some usd =>
        ⟨"Current price of " ++ tokenSymbol ++ ": $" ++ env.localePrice usd ++ " USD", st, []⟩
      | none => ⟨"Price information for " ++ tokenSymbol ++ " is not available.", st, []⟩
  else if command = "history" then
    let wl := getUserWallet env senderUsername platform.str
    match wl.1 with
    | none => ⟨connectFirstMsg cfg, st, wl.2⟩
    | some userWallet =>
      let call := LedgerCall.getWalletTransactions userWallet 5
      match env.transactions userWallet 5 with
      | Except.error e =>
        ⟨"Failed to fetch transaction history: " ++ e, st, wl.2 ++ [call]⟩
      | Except.ok none =>
        ⟨"No transaction history found for your wallet.", st, wl.2 ++ [call]⟩
      | Except.ok (some transactions) =>
        if transactions.isEmpty then
          ⟨"No transaction history found for your wallet.", st, wl.2 ++ [call]⟩
        else
          ⟨"Recent transactions for your wallet:\n"
            ++ String.join (transactions.enum.map fun p => historyLine cfg env p.1 p.2),
           st, wl.2 ++ [call]⟩
  else if command = "profile" then
    let call := LedgerCall.getUserProfile senderUsername platform.str
    match env.profile senderUsername platform.str with
    | Except.error e => ⟨"Failed to fetch user profile: " ++ e, st, [call]⟩
    | Except.ok none =>
      ⟨"No profile found. Use \"register\" to create a wallet first.", st, [call]⟩
    | Except.ok (some pr) => ⟨profileMsg env pr, st, [call]⟩
  else if command = "export-privatekey" then
    if platform ≠ Platform.telegram then ⟨securityMsg, st, []⟩
    else
      let wl := getUserWallet env senderUsername platform.str
      match wl.1 with
      | none => ⟨exportConnectMsg, st, wl.2⟩
      | some _ =>
        let verificationCode := env.genCode now
        let k := codeKey platform senderUsername
        ⟨issueMsg verificationCode,
         ⟨setCode st.codes k verificationCode, (k, now + 5 * 60 * 1000) :: st.timers⟩,
         wl.2⟩
  else if command = "help" then
    ⟨helpMsg platform, st, []⟩
  else if command = "transaction" then
    match cw.get? 1 with
    | none => ⟨"Invalid format. Use: transaction TX_SIGNATURE", st, []⟩
    | some signature =>
      let call := LedgerCall.getTransaction signature
      match env.txDetails signature with
      | Except.ok txInfo =>
        ⟨"Transaction " ++ signature ++ ":\nStatus: " ++ txInfo.status ++ "\nFee: "
          ++ env.renderNum txInfo.fee ++ " lamports\n"
          ++ (if blockTimeIsSet txInfo.blockTime then
              "Block Time: " ++ env.formatDate ((txInfo.blockTime.getD 0) * 1000)
            else ""), st, [call]⟩
      | Except.error e =>
        ⟨"Failed to get transaction details. Error: " ++ e, st, [call]⟩
  else if command = "account" then
    match cw.get? 1 with
    | none => ⟨"Invalid format. Use: account ACCOUNT_ADDRESS", st, []⟩
    | some address =>
      let call := LedgerCall.getAccountInfo address
      match env.account address with
      | Except.ok accountInfo =>
        ⟨"Account Information for " ++ address ++ ":\nBalance: "
          ++ env.renderNum (accountInfo.lamports / 1000000000) ++ " SOL\nOwner: "
          ++ accountInfo.owner ++ "\nExecutable: "
          ++ (if accountInfo.executable then "true" else "false"), st, [call]⟩
      | Except.error e =>
        ⟨"Failed to get account information. Error: " ++ e, st, [call]⟩
  else if command = "network" then
    match env.network with
    | Except.ok status =>
      ⟨"Solana Network Status:\nHealth: " ++ status.health ++ "\nCurrent Epoch: "
        ++ status.currentEpoch ++ "\nBlock Height: " ++ status.blockHeight
        ++ "\nCurrent Slot: " ++ status.currentSlot, st, [LedgerCall.networkStatus]⟩
    | Except.error e =>
      ⟨"Failed to get network status. Error: " ++ e, st, [LedgerCall.networkStatus]⟩
  else
    ⟨unknownCmdMsg, st, []⟩

/-- `processCommand` (processor.ts lines 14-521): fire due timers, tokenize
and mention-filter the text, extract the lower-cased keyword; a two-token
`export-privatekey` with a six-digit second token takes the verification
path, everything else goes down the dispatch chain. -/
def processCommand (cfg : Config) (env : Env) (st : ProcState) (now : ℕ)
    (text : String) (platform : Platform) (senderUsername : String) : Outcome :=
  let st := fireTimers st now
  match cleanWords cfg text with
  | [] => ⟨promptMsg, st, []⟩
  | w0 :: rest =>
    let command := strLower w0
    if command = "export-privatekey" ∧ rest ≠ [] then
      if platform ≠ Platform.telegram then ⟨securityMsg, st, []⟩
      else
        let providedCode := jsTrim (rest.headD "")
        if isSixDigits providedCode then
          exportVerify env st platform senderUsername providedCode
        else dispatch cfg env st now platform senderUsername command (w0 :: rest)
    else dispatch cfg env st now platform senderUsername command (w0 :: rest)

/-! ## telegram.ts: the text route -/

/-- JS `s.startsWith(pre)`. -/
def strStarts (s pre : String) : Bool :=
  chPrefixOf pre.data s.data

/-- `normalizeCommand` (telegram.ts lines 26-29): strip one leading slash
from the raw text (`text.startsWith('/') ? text.substring(1) : text`). -/
def normalizeCommand (text : String) : String :=
  match text.data with
  | '/' :: rest => String.mk rest
  | _ => text

/-- The group-surface rejection reply (telegram.ts line 58). -/
def groupRejectMsg : String :=
  "⚠️ For security reasons, private key export is only available in private conversations with the bot."

/-- The `bot.on(\x27text\x27)` route (telegram.ts lines 52-75): normalize, then
reject a raw text that starts with `export-privatekey` when the chat is not
private, otherwise hand to the processor. -/
def telegramOnText (cfg : Config) (env : Env) (st : ProcState) (now : ℕ)
    (text : String) (isPrivateChannel : Bool) (username : String) : Outcome :=
  let t := normalizeCommand text
  if strStarts t "export-privatekey" && !isPrivateChannel then
    ⟨groupRejectMsg, st, []⟩
  else processCommand cfg env st now t Platform.telegram username

/-! ## Concrete sample data for closed runs and witnesses -/

/-- A concrete configuration for concrete runs. -/
def sampleCfg : Config :=
  ⟨"TwBot", "TgBot", "42", "https://app.example", "https://explorer.example"⟩

/-- A concrete oracle: `alice` has wallet `WALLETADDR1`, balances are 5 SOL,
remote calls succeed, the export returns a secret, and generated codes are
`111111` at time `0` and `222222` later. -/
def sampleEnv : Env where
  walletSocial := fun _ u => if u = "alice" then some "WALLETADDR1" else none
  getOrCreate := fun _ u => Except.ok ("NEW-" ++ u)
  link := fun _ _ _ => true
  balance := fun _ => Except.ok 5
  tokenBalances := fun _ => Except.ok []
  sendSol := fun _ _ _ _ _ => Except.ok ("SIG1", false)
  sendToken := fun _ _ _ _ _ _ _ => Except.ok ("SIG2", false)
  exportKey := fun _ _ => Except.ok ⟨true, some "SECRETKEY", none⟩
  transactions := fun _ _ => Except.ok none
  profile := fun _ _ => Except.ok none
  txDetails := fun _ => Except.error "unavailable"
  account := fun _ => Except.error "unavailable"
  network := Except.error "unavailable"
  infinityOutcome := fun _ _ _ => ("", [])
  genCode := fun t => if t = 0 then "111111" else "222222"
  renderNum := fun _ => "5"
  formatDate := fun _ => "1/1/2025, 12:00:00 AM"
  localePrice := fun _ => "125.42"

/-- `sampleEnv` with a 0.000004 SOL balance. -/
def envLowBal : Env :=
  { sampleEnv with balance := fun _ => Except.ok (mkRat 1 250000) }

/-- `sampleEnv` whose remote token transfer is rejected by the service. -/
def envTokenReject : Env :=
  { sampleEnv with
    sendToken := fun _ _ _ _ _ _ _ =>
      Except.error ⟨"Request failed with status code 400",
        some ⟨some "insufficient token balance", none⟩⟩ }

/-- A state holding a live challenge `123456` for `telegram:alice`, with its
expiry timer pending at `300000` ms. -/
def stWithCode : ProcState :=
  ⟨[("telegram:alice", "123456")], [("telegram:alice", 300000)]⟩

/-- The configuration of the C9 scenario: `@BotMention` is the telegram
mention form. -/
def mentionCfg : Config := ⟨"TwBotXyz", "BotMention", "999", "", ""⟩

deriving instance DecidableEq for Except


/-! ## Supporting lemmas: substring tests -/

theorem chPrefixOf_mem {p l : List Char} (h : chPrefixOf p l = true) :
    ∀ c ∈ p, c ∈ l := by
  induction p generalizing l with
  | nil => intro c hc; cases hc
  | cons a as ih =>
    cases l with
    | nil => simp [chPrefixOf] at h
    | cons b bs =>
      simp only [chPrefixOf, Bool.and_eq_true, beq_iff_eq] at h
      intro c hc
      rcases List.mem_cons.mp hc with hc | hc
      · exact List.mem_cons.mpr (Or.inl (hc.trans h.1))
      · exact List.mem_cons.mpr (Or.inr (ih h.2 c hc))

theorem chInfixOf_mem {p l : List Char} (h : chInfixOf p l = true) :
    ∀ c ∈ p, c ∈ l := by
  induction l with
  | nil =>
    intro c hc
    cases p with
    | nil => cases hc
    | cons a as => simp [chInfixOf, chPrefixOf] at h
  | cons b bs ih =>
    simp only [chInfixOf, Bool.or_eq_true] at h
    intro c hc
    rcases h with h | h
    · exact chPrefixOf_mem h c hc
    · exact List.mem_cons.mpr (Or.inr (ih h c hc))

theorem strContains_eq_false {s pat : String} {c : Char}
    (hc : c ∈ pat.data) (hs : c ∉ s.data) : strContains s pat = false := by
  cases h : strContains s pat with
  | false => rfl
  | true => exact absurd (chInfixOf_mem h c hc) hs

theorem chPrefixOf_append_right {p l : List Char} (t : List Char)
    (h : chPrefixOf p l = true) : chPrefixOf p (l ++ t) = true := by
  induction p generalizing l with
  | nil => simp [chPrefixOf]
  | cons a as ih =>
    cases l with
    | nil => simp [chPrefixOf] at h
    | cons b bs =>
      simp only [chPrefixOf, Bool.and_eq_true] at h ⊢
      exact ⟨h.1, ih h.2⟩

theorem chInfixOf_of_chPrefixOf {p l : List Char} (h : chPrefixOf p l = true) :
    chInfixOf p l = true := by
  cases l with
  | nil => simpa [chInfixOf] using h
  | cons b bs => simp [chInfixOf, h]

theorem strContains_of_data_pre {s pat : String}
    (h : chPrefixOf pat.data s.data = true) : strContains s pat = true :=
  chInfixOf_of_chPrefixOf h

theorem data_append (a b : String) : (a ++ b).data = a.data ++ b.data :=
  String.data_append a b

/-! ## Supporting lemmas: character classes, tokenization, trimming -/

theorem digit_not_ws {c : Char} (h : c.isDigit = true) : c.isWhitespace = false := by
  by_contra hw
  simp only [Bool.not_eq_false, Char.isWhitespace, Bool.or_eq_true, decide_eq_true_eq] at hw
  rcases hw with ((h1 | h1) | h1) | h1 <;> subst h1 <;> exact absurd h (by decide)

theorem digit_not_at {s : String} (h : ∀ c ∈ s.data, c.isDigit = true) :
    '@' ∉ s.data ∧ '<' ∉ s.data := by
  constructor <;> intro hm <;> simpa using h _ hm

theorem mentionFree_of_no_at_lt (cfg : Config) {w : String}
    (hat : '@' ∉ w.data) (hlt : '<' ∉ w.data) : mentionFree cfg w = true := by
  have h1 : strContains w ("@" ++ cfg.twitterBot) = false :=
    strContains_eq_false (by rw [data_append]; exact List.mem_cons_self _ _) hat
  have h2 : strContains w ("@" ++ cfg.telegramBot) = false :=
    strContains_eq_false (by rw [data_append]; exact List.mem_cons_self _ _) hat
  have h3 : strContains w ("<@" ++ cfg.discordId ++ ">") = false :=
    strContains_eq_false (c := '<')
      (by rw [data_append, data_append]; exact List.mem_append_left _ (List.mem_cons_self _ _))
      hlt
  simp [mentionFree, h1, h2, h3]

theorem splitWsAux_cons (c : Char) (cs acc : List Char) :
    splitWsAux (c :: cs) acc =
      if c.isWhitespace then
        if acc.isEmpty then splitWsAux cs []
        else String.mk acc.reverse :: splitWsAux cs []
      else splitWsAux cs (c :: acc) := rfl

theorem splitWsAux_nonws {l : List Char} (h : ∀ c ∈ l, c.isWhitespace = false)
    (rest : List Char) (acc : List Char) :
    splitWsAux (l ++ rest) acc = splitWsAux rest (l.reverse ++ acc) := by
  induction l generalizing acc with
  | nil => simp
  | cons c cs ih =>
    have hc := h c (List.mem_cons_self _ _)
    rw [List.cons_append, splitWsAux_cons, if_neg (by simp [hc]),
      ih (fun d hd => h d (List.mem_cons_of_mem _ hd)) (c :: acc)]
    congr 1
    simp

theorem string_mk_data (s : String) : String.mk s.data = s := rfl

theorem splitWs_two (a b : String)
    (ha : a.data ≠ []) (hb : b.data ≠ [])
    (hwa : ∀ c ∈ a.data, c.isWhitespace = false)
    (hwb : ∀ c ∈ b.data, c.isWhitespace = false) :
    splitWs (a ++ " " ++ b) = [a, b] := by
  unfold splitWs
  have hdata : (a ++ " " ++ b).data = a.data ++ (' ' :: b.data) := by
    rw [data_append, data_append, List.append_assoc]
    rfl
  rw [hdata, splitWsAux_nonws hwa _ [], List.append_nil, splitWsAux_cons,
    if_pos (by decide)]
  have hrev : a.data.reverse.isEmpty = false := by
    simp [List.isEmpty_iff, ha]
  rw [if_neg (by simp [hrev])]
  rw [show (b.data : List Char) = b.data ++ [] by simp, splitWsAux_nonws hwb _ [],
    List.append_nil]
  have hrevb : b.data.reverse.isEmpty = false := by
    simp [List.isEmpty_iff, hb]
  rw [show splitWsAux [] b.data.reverse = if b.data.reverse.isEmpty then []
      else [String.mk b.data.reverse.reverse] from rfl]
  rw [if_neg (by simp [hrevb]), List.reverse_reverse, string_mk_data,
    List.reverse_reverse, string_mk_data]

theorem dropWhile_eq_self_of {α : Type} {p : α → Bool} {l : List α}
    (h : ∀ c ∈ l, p c = false) : l.dropWhile p = l := by
  cases l with
  | nil => rfl
  | cons a t => simp [List.dropWhile_cons, h a (List.mem_cons_self _ _)]

theorem jsTrim_eq_self {s : String} (h : ∀ c ∈ s.data, c.isWhitespace = false) :
    jsTrim s = s := by
  unfold jsTrim
  rw [dropWhile_eq_self_of h,
    dropWhile_eq_self_of (fun c hc => h c (List.mem_reverse.mp hc)),
    List.reverse_reverse, string_mk_data]

/-! ## Supporting lemmas: `cleanWords` on export texts -/

theorem sixDigits_all_digits {c : String} (h : isSixDigits c = true) :
    ∀ ch ∈ c.data, ch.isDigit = true := by
  simp only [isSixDigits, Bool.and_eq_true, List.all_eq_true] at h
  exact fun ch hch => h.2 ch hch

theorem sixDigits_ne_nil {c : String} (h : isSixDigits c = true) : c.data ≠ [] := by
  simp only [isSixDigits, Bool.and_eq_true, beq_iff_eq] at h
  intro hnil
  have : c.length = 0 := by simp [String.length, hnil]
  omega

theorem cleanWords_export (cfg : Config) :
    cleanWords cfg "export-privatekey" = ["export-privatekey"] := by
  unfold cleanWords
  have hsplit : splitWs "export-privatekey" = ["export-privatekey"] := by decide
  rw [hsplit]
  have hm : mentionFree cfg "export-privatekey" = true :=
    mentionFree_of_no_at_lt cfg (by decide) (by decide)
  simp [hm]

theorem cleanWords_export_code (cfg : Config) {c : String} (h : isSixDigits c = true) :
    cleanWords cfg ("export-privatekey " ++ c) = ["export-privatekey", c] := by
  unfold cleanWords
  have hd := sixDigits_all_digits h
  have hwb : ∀ ch ∈ c.data, ch.isWhitespace = false :=
    fun ch hch => digit_not_ws (hd ch hch)
  have hsplit : splitWs ("export-privatekey" ++ " " ++ c) = ["export-privatekey", c] :=
    splitWs_two _ _ (by decide) (sixDigits_ne_nil h) (by decide) hwb
  have heq : ("export-privatekey " ++ c : String) = "export-privatekey" ++ " " ++ c := by
    apply String.ext
    rw [data_append, data_append, data_append]
    rw [show ("export-privatekey " : String).data
        = ("export-privatekey" : String).data ++ (" " : String).data by decide]
  rw [heq, hsplit]
  have hat := digit_not_at hd
  have hm1 : mentionFree cfg "export-privatekey" = true :=
    mentionFree_of_no_at_lt cfg (by decide) (by decide)
  have hm2 : mentionFree cfg c = true := mentionFree_of_no_at_lt cfg hat.1 hat.2
  simp [hm1, hm2]

/-! ## Supporting lemmas: the challenge map and timers -/

theorem lookup_filter_key {q : String × String → Bool} {p : String → Bool}
    (hq : ∀ kc, q kc = p kc.1) (l : List (String × String)) (k : String) :
    (l.filter q).lookup k = if p k then l.lookup k else none := by
  induction l with
  | nil => simp [List.lookup]
  | cons a t ih =>
    by_cases hk : k = a.1 <;> by_cases hp : p a.1 = true <;>
      simp [List.filter_cons, List.lookup, hq, hk, hp, ih, beq_iff_eq]
    · intro a1 b _ hpa1 heq
      rw [heq] at hp
      exact hp hpa1
    · have hbeq : (k == a.1) = false := by simp [hk]
      simp [hbeq]
    · have hbeq : (k == a.1) = false := by simp [hk]
      simp [hbeq]

theorem lookup_eraseCode (l : List (String × String)) (k : String) :
    (eraseCode l k).lookup k = none := by
  unfold eraseCode
  rw [lookup_filter_key (p := fun x => x != k) (fun _ => rfl)]
  simp

theorem lookup_setCode (l : List (String × String)) (k c : String) :
    (setCode l k c).lookup k = some c := by
  simp [setCode, List.lookup]

theorem lookup_fireTimers_cases (st : ProcState) (now : ℕ) (k : String) :
    (fireTimers st now).codes.lookup k = none
      ∨ (fireTimers st now).codes.lookup k = st.codes.lookup k := by
  unfold fireTimers
  rw [lookup_filter_key (p := fun x => !dueKey st.timers now x) (fun _ => rfl)]
  by_cases h : dueKey st.timers now k = true
  · left; simp [h]
  · right; simp [h]

theorem lookup_fireTimers_none (st : ProcState) (now : ℕ) (k : String)
    (h : st.codes.lookup k = none) : (fireTimers st now).codes.lookup k = none := by
  rcases lookup_fireTimers_cases st now k with h' | h'
  · exact h'
  · rw [h', h]

/-! ## Evaluation lemmas for the export paths -/


theorem processCommand_verify (cfg : Config) (env : Env) (st : ProcState) (now : ℕ)
    (s c : String) (hc : isSixDigits c = true) :
    processCommand cfg env st now ("export-privatekey " ++ c) Platform.telegram s
      = exportVerify env (fireTimers st now) Platform.telegram s c := by
  unfold processCommand
  rw [cleanWords_export_code cfg hc]
  dsimp only
  rw [if_pos ⟨by decide, by simp⟩, if_neg (by simp), List.headD_cons,
    jsTrim_eq_self (fun ch hch => digit_not_ws (sixDigits_all_digits hc ch hch)),
    if_pos hc]

theorem processCommand_issue (cfg : Config) (env : Env) (st : ProcState) (now : ℕ)
    (s w : String) (hw : env.walletSocial "telegram" s = some w) :
    processCommand cfg env st now "export-privatekey" Platform.telegram s
      = ⟨issueMsg (env.genCode now),
         ⟨setCode (fireTimers st now).codes (codeKey Platform.telegram s) (env.genCode now),
          (codeKey Platform.telegram s, now + 5 * 60 * 1000) :: (fireTimers st now).timers⟩,
         [LedgerCall.getWalletSocial "telegram" s]⟩ := by
  unfold processCommand
  rw [cleanWords_export cfg]
  dsimp only
  rw [if_neg (by simp)]
  unfold dispatch
  rw [show strLower "export-privatekey" = "export-privatekey" by decide]
  rw [if_neg (by decide), if_neg (by decide), if_neg (by decide), if_neg (by decide),
    if_neg (by decide), if_neg (by decide), if_neg (by decide), if_neg (by decide),
    if_neg (by decide), if_neg (by decide), if_pos rfl, if_neg (by simp)]
  unfold getUserWallet
  rw [show Platform.telegram.str = "telegram" from rfl,
    show validatePlatform "telegram" = "telegram" by decide]
  dsimp only
  rw [hw]

theorem exportVerify_expired (env : Env) (st : ProcState) (p : Platform) (s c : String)
    (h : st.codes.lookup (codeKey p s) = none) :
    exportVerify env st p s c = ⟨expiredMsg, st, []⟩ := by
  unfold exportVerify
  rw [h]

theorem exportVerify_invalid (env : Env) (st : ProcState) (p : Platform) (s c ec : String)
    (h : st.codes.lookup (codeKey p s) = some ec) (hne : c ≠ ec) :
    exportVerify env st p s c = ⟨invalidCodeMsg, st, []⟩ := by
  unfold exportVerify
  rw [h]
  dsimp only
  rw [if_pos hne]

theorem exportVerify_match_state (env : Env) (st : ProcState) (p : Platform) (s c : String)
    (h : st.codes.lookup (codeKey p s) = some c) :
    (exportVerify env st p s c).state = ⟨eraseCode st.codes (codeKey p s), st.timers⟩ := by
  unfold exportVerify
  rw [h]
  dsimp only
  rw [if_neg (by simp)]
  unfold getUserWallet
  dsimp only
  cases env.walletSocial (validatePlatform p.str) s with
  | none => rfl
  | some w =>
    cases env.exportKey s p.str with
    | error e => rfl
    | ok r =>
      dsimp only
      by_cases hs : r.success = true
      · simp [hs]
      · simp [hs]

/-- C1: verification codes for key export are single-use.  For every state in
which the key `(telegram, senderHandle)` holds a live six-digit code `c`, the
first `export-privatekey c` invocation removes the stored challenge from the
post-state — for EVERY remote-world oracle, in particular when the remote
export call fails — and a second sequential `export-privatekey c` invocation
replies with the expired-or-not-found rejection and performs no ledger
calls. -/
theorem export_code_single_use (cfg : Config) (env₁ env₂ : Env) (st : ProcState) (now₁ now₂ : ℕ)
    (s c : String) (hc : isSixDigits c = true)
    (hlive : (fireTimers st now₁).codes.lookup (codeKey Platform.telegram s) = some c) :
    ((processCommand cfg env₁ st now₁ ("export-privatekey " ++ c) Platform.telegram s).state.codes.lookup
        (codeKey Platform.telegram s) = none)
    ∧ (processCommand cfg env₂
        (processCommand cfg env₁ st now₁ ("export-privatekey " ++ c) Platform.telegram s).state
        now₂ ("export-privatekey " ++ c) Platform.telegram s).reply = expiredMsg
    ∧ (processCommand cfg env₂
        (processCommand cfg env₁ st now₁ ("export-privatekey " ++ c) Platform.telegram s).state
        now₂ ("export-privatekey " ++ c) Platform.telegram s).calls = [] := by
  have h1 : (processCommand cfg env₁ st now₁ ("export-privatekey " ++ c) Platform.telegram s).state.codes.lookup
      (codeKey Platform.telegram s) = none := by
    rw [processCommand_verify cfg env₁ st now₁ s c hc,
      exportVerify_match_state env₁ _ _ s c hlive]
    exact lookup_eraseCode _ _
  refine ⟨h1, ?_, ?_⟩ <;>
    rw [processCommand_verify cfg env₂ _ now₂ s c hc,
      exportVerify_expired env₂ _ _ s c (lookup_fireTimers_none _ now₂ _ h1)]

/-- C4: at most one live challenge per key.  After issuing a challenge for
`(telegram, s)` on top of any prior state (so in particular on top of a state
already holding an earlier challenge with some code `c₁` distinct from the
newly generated one), a verification attempt with `c₁` performs no ledger
calls and is rejected (invalid-code, or expired if a timer already removed
the entry), and any six-digit code whose verification attempt performs any
ledger call (i.e. is accepted past the code comparison) must be the newly
issued code — it is the only code that can verify. -/
theorem second_challenge_supersedes_first (cfg : Config) (env₁ env₂ env₃ : Env)
    (st : ProcState) (now₁ now₂ now₃ : ℕ) (s w c₁ c : String)
    (hw : env₁.walletSocial "telegram" s = some w)
    (h6 : isSixDigits c₁ = true)
    (hne : c₁ ≠ env₁.genCode now₁)
    (h6c : isSixDigits c = true) :
    ((processCommand cfg env₂
        (processCommand cfg env₁ st now₁ "export-privatekey" Platform.telegram s).state
        now₂ ("export-privatekey " ++ c₁) Platform.telegram s).calls = []
      ∧ ((processCommand cfg env₂
          (processCommand cfg env₁ st now₁ "export-privatekey" Platform.telegram s).state
          now₂ ("export-privatekey " ++ c₁) Platform.telegram s).reply = invalidCodeMsg
        ∨ (processCommand cfg env₂
          (processCommand cfg env₁ st now₁ "export-privatekey" Platform.telegram s).state
          now₂ ("export-privatekey " ++ c₁) Platform.telegram s).reply = expiredMsg))
    ∧ ((processCommand cfg env₃
          (processCommand cfg env₁ st now₁ "export-privatekey" Platform.telegram s).state
          now₃ ("export-privatekey " ++ c) Platform.telegram s).calls ≠ [] →
        c = env₁.genCode now₁) := by
  rw [processCommand_issue cfg env₁ st now₁ s w hw]
  set c₂ := env₁.genCode now₁ with hc₂
  set k := codeKey Platform.telegram s with hk
  set st₁ : ProcState :=
    ⟨setCode (fireTimers st now₁).codes k c₂,
     (k, now₁ + 5 * 60 * 1000) :: (fireTimers st now₁).timers⟩ with hst₁
  have hlook : st₁.codes.lookup k = some c₂ := lookup_setCode _ _ _
  constructor
  · rw [processCommand_verify cfg env₂ st₁ now₂ s c₁ h6]
    rcases lookup_fireTimers_cases st₁ now₂ k with h | h
    · rw [exportVerify_expired env₂ _ _ s c₁ h]
      exact ⟨rfl, Or.inr rfl⟩
    · rw [hlook] at h
      rw [exportVerify_invalid env₂ _ _ s c₁ c₂ h hne]
      exact ⟨rfl, Or.inl rfl⟩
  · intro hcalls
    rw [processCommand_verify cfg env₃ st₁ now₃ s c h6c] at hcalls
    rcases lookup_fireTimers_cases st₁ now₃ k with h | h
    · rw [exportVerify_expired env₃ _ _ s c h] at hcalls
      exact absurd rfl hcalls
    · rw [hlook] at h
      by_cases hcc : c = c₂
      · exact hcc
      · rw [exportVerify_invalid env₃ _ _ s c c₂ h hcc] at hcalls
        exact absurd rfl hcalls

theorem natDigitsAux_digits (fuel : ℕ) :
    ∀ (n : ℕ), ∀ c ∈ natDigitsAux n fuel, c.isDigit = true := by
  induction fuel with
  | zero => intro n c hc; cases hc
  | succ fuel ih =>
    intro n c hc
    rw [natDigitsAux] at hc
    split at hc
    · next h =>
      simp only [List.mem_singleton] at hc
      subst hc
      interval_cases n <;> decide
    · next h =>
      rcases List.mem_append.mp hc with hm | hm
      · exact ih (n / 10) c hm
      · simp only [List.mem_singleton] at hm
        subst hm
        have h10 : n % 10 < 10 := Nat.mod_lt _ (by omega)
        generalize hr : n % 10 = r at h10 ⊢
        interval_cases r <;> decide

theorem natDigits_digits (n : ℕ) : ∀ c ∈ natDigits n, c.isDigit = true :=
  natDigitsAux_digits (n + 1) n

theorem pad6_chars (m : ℕ) : ∀ c ∈ (pad6 m).data, c.isDigit = true := by
  unfold pad6
  intro c hc
  rw [data_append] at hc
  rcases List.mem_append.mp hc with hm | hm
  · have : c = '0' := (List.eq_of_mem_replicate hm)
    subst this; decide
  · exact natDigits_digits m c hm

theorem toFixed6_chars (q : ℚ) :
    ∀ c ∈ (toFixed6 q).data, c.isDigit = true ∨ c = '-' ∨ c = '.' := by
  unfold toFixed6
  intro c hc
  rw [data_append, data_append, data_append] at hc
  rcases List.mem_append.mp hc with hm | hm
  · rcases List.mem_append.mp hm with hm2 | hm2
    · rcases List.mem_append.mp hm2 with hm3 | hm3
      · split at hm3
        · have hc' : c = '-' := by simpa using hm3
          right; left; exact hc'
        · simp at hm3
      · exact Or.inl (natDigits_digits _ c hm3)
    · right; right; simpa using hm2
  · exact Or.inl (pad6_chars _ c hm)

theorem insufficientMsg_data (b r : ℚ) :
    (insufficientMsg b r).data
      = ("Insufficient funds. You have " : String).data
        ++ ((toFixed6 b).data ++ ((" SOL but need at least " : String).data
        ++ ((toFixed6 r).data ++ (" SOL (including fees)." : String).data))) := by
  unfold insufficientMsg
  rw [data_append, data_append, data_append, data_append]
  simp [List.append_assoc]

theorem insufficientMsg_no_debit (b r : ℚ) :
    strContains (insufficientMsg b r) debitPat = false := by
  apply strContains_eq_false (c := 'A')
  · decide
  · rw [insufficientMsg_data]
    intro hm
    rcases List.mem_append.mp hm with h | h
    · revert h; decide
    rcases List.mem_append.mp h with h | h
    · rcases toFixed6_chars b 'A' h with h1 | h1 | h1 <;> revert h1 <;> decide
    rcases List.mem_append.mp h with h | h
    · revert h; decide
    rcases List.mem_append.mp h with h | h
    · rcases toFixed6_chars r 'A' h with h1 | h1 | h1 <;> revert h1 <;> decide
    · revert h; decide

theorem insufficientMsg_has_insufficient (b r : ℚ) :
    strContains (insufficientMsg b r) "Insufficient funds" = true := by
  apply strContains_of_data_pre
  rw [insufficientMsg_data]
  exact chPrefixOf_append_right _ (by decide)

theorem insufficientMsg_ne_empty (b r : ℚ) : insufficientMsg b r ≠ "" := by
  intro h
  have hd := congrArg String.data h
  rw [insufficientMsg_data] at hd
  simp at hd

theorem validatePlatform_cases (p : String) :
    validatePlatform p = "twitter" ∨ validatePlatform p = "telegram"
      ∨ validatePlatform p = "discord" := by
  unfold validatePlatform
  by_cases h : (["twitter", "telegram", "discord"] : List String).contains (strLower p) = true
  · rw [if_pos h]
    simpa using h
  · rw [if_neg h]
    right; right; rfl

theorem validatePlatform_idem (p : String) :
    validatePlatform (validatePlatform p) = validatePlatform p := by
  rcases validatePlatform_cases p with h | h | h <;> rw [h] <;> decide

/-- C5: native-asset pre-flight.  For every transfer request of a token whose
upper-cased symbol is `SOL`, with a resolvable sender wallet whose balance
`bal` satisfies `bal < amount + 0.000005`, `executeTransaction` fails with
exactly the insufficient-funds message rendering both balances via
`toFixed(6)`, and the remote-call trace is the wallet lookup and the balance
read only — no remote transfer call is made. -/
theorem native_transfer_preflight_insufficient (env : Env) (senderUsername recipientUsername token platform w : String)
    (amount bal : ℚ)
    (hs : senderUsername ≠ "") (hr : recipientUsername ≠ "") (ha : 0 < amount)
    (htok : strUpper token = "SOL")
    (hw : env.walletSocial (validatePlatform platform) senderUsername = some w)
    (hb : env.balance w = Except.ok bal)
    (hlt : bal < amount + feeBuffer) :
    executeTransaction env senderUsername recipientUsername amount token platform
      = (Except.error (insufficientMsg bal (amount + feeBuffer)),
         [LedgerCall.getWalletSocial (validatePlatform platform) senderUsername,
          LedgerCall.getBalance w]) := by
  unfold executeTransaction executeTransactionCore
  rw [if_neg hs, if_neg hr, if_neg (not_not_intro ha)]
  unfold getUserWallet
  dsimp only
  rw [validatePlatform_idem, hw]
  dsimp only
  rw [htok, if_pos rfl]
  unfold getWalletBalance
  dsimp only
  rw [hb]
  dsimp only
  rw [if_pos hlt]
  unfold innerSolCatch
  rw [if_neg (by
    intro hcon
    rw [insufficientMsg_no_debit] at hcon
    exact absurd hcon.2 (by simp))]
  dsimp only [Except.mapError]
  unfold translateTx localTxMsg
  dsimp only
  rw [if_pos (insufficientMsg_ne_empty bal (amount + feeBuffer)),
    if_pos (insufficientMsg_has_insufficient bal (amount + feeBuffer))]
  rfl

/-- C6: for every raw text whose keyword is `send` or `tip` (on any platform,
from any sender, in any state) and whose amount token parses to NaN or to a
non-positive number, the reply is the invalid-format validation message and
the ledger-call trace is empty. -/
theorem send_invalid_amount_rejected_locally (cfg : Config) (env : Env) (st : ProcState) (now : ℕ)
    (text : String) (platform : Platform) (s w0 : String) (rest : List String)
    (hcw : cleanWords cfg text = w0 :: rest)
    (hcmd : strLower w0 = "send" ∨ strLower w0 = "tip")
    (hamt : (jsParseFloatOpt ((w0 :: rest).get? 2)).isNaN = true
      ∨ (jsParseFloatOpt ((w0 :: rest).get? 2)).leZero = true) :
    (processCommand cfg env st now text platform s).reply = invalidSendMsg
    ∧ (processCommand cfg env st now text platform s).calls = [] := by
  unfold processCommand
  rw [hcw]
  dsimp only
  have hne : ¬(strLower w0 = "export-privatekey" ∧ rest ≠ []) := by
    rcases hcmd with h | h <;> rw [h] <;> exact fun hcon => absurd hcon.1 (by decide)
  rw [if_neg hne]
  unfold dispatch
  rw [if_pos hcmd]
  dsimp only
  rw [if_pos (by rcases hamt with h | h <;> rw [h] <;> simp)]
  exact ⟨rfl, rfl⟩

/-- C8 amended: the leading slash is stripped only by the telegram transport
and only from the first character of the raw text, so on the telegram text
route a raw text `"/" ++ u` (with `u` not itself slash-prefixed) is processed
identically to `u`. -/
theorem telegram_transport_slash_strip_equiv (cfg : Config) (env : Env) (st : ProcState)
    (now : ℕ) (u : String) (isPrivateChannel : Bool) (username : String)
    (h : u.data.head? ≠ some '/') :
    telegramOnText cfg env st now ("/" ++ u) isPrivateChannel username
      = telegramOnText cfg env st now u isPrivateChannel username := by
  unfold telegramOnText
  have h1 : normalizeCommand ("/" ++ u) = u := by
    unfold normalizeCommand
    have hd : ("/" ++ u).data = '/' :: u.data := by
      rw [data_append]; rfl
    split
    · next rest heq =>
      rw [hd] at heq
      have : u.data = rest := (List.cons.injEq _ _ _ _).mp heq |>.2
      rw [← this, string_mk_data]
    · next hne => exact (hne u.data hd).elim
  have h2 : normalizeCommand u = u := by
    unfold normalizeCommand
    split
    · next rest heq => exact absurd (by rw [heq]; rfl) h
    · rfl
  rw [h1, h2]

/-- C8 counterexample: with the slash-prefixed keyword appearing after a
filtered bot-mention token, the slash survives into keyword comparison even
on the telegram text route, so the slash form is NOT equivalent to the bare
form (the claim, quantified over every raw text, is false). -/
theorem slash_equivalence_counterexample :
    (telegramOnText sampleCfg sampleEnv ⟨[], []⟩ 0 "@TgBot /help" true "alice").reply
      ≠ (telegramOnText sampleCfg sampleEnv ⟨[], []⟩ 0 "@TgBot help" true "alice").reply := by
  decide

/-- C9: the mention filter removes every token containing any of the three
configured mention forms, for every configuration and raw text; and the
concrete scenario normalizes as the spec states. -/
theorem mention_tokens_filtered :
    (∀ (cfg : Config) (text : String), ∀ w ∈ cleanWords cfg text,
      strContains w ("@" ++ cfg.twitterBot) = false
      ∧ strContains w ("@" ++ cfg.telegramBot) = false
      ∧ strContains w ("<@" ++ cfg.discordId ++ ">") = false)
    ∧ parseCommand mentionCfg "@BotMention send @alice 2 SOL"
        = some ⟨"send", ["@alice", "2", "SOL"]⟩ := by
  constructor
  · intro cfg text w hw
    have hm := (List.mem_filter.mp hw).2
    simp only [mentionFree, Bool.and_eq_true, Bool.not_eq_true'] at hm
    exact ⟨hm.1.1, hm.1.2, hm.2⟩
  · decide

/-- C2 failing input: in a non-private telegram chat, the raw text
`Export-privatekey 123456` slips past the transport's case-sensitive
`startsWith` guard, the processor lower-cases the keyword, matches the live
code, and exports the private key into the group; the exact-case form is
what the guard catches. -/
theorem telegram_group_guard_bypass_export :
    (telegramOnText sampleCfg sampleEnv stWithCode 10000 "Export-privatekey 123456" false "alice").reply
      = privateKeyMsg "SECRETKEY"
    ∧ (telegramOnText sampleCfg sampleEnv stWithCode 10000 "Export-privatekey 123456" false "alice").calls
      = [LedgerCall.getWalletSocial "telegram" "alice",
         LedgerCall.exportPrivateKey "alice" "telegram"]
    ∧ (telegramOnText sampleCfg sampleEnv stWithCode 10000 "export-privatekey 123456" false "alice").reply
      = groupRejectMsg := by
  decide

/-- C3 failing input: a challenge issued at `0` and superseded at `120000`
(2:00) leaves the first challenge's expiry timer pending; that stale timer
fires at `300000` and deletes the SECOND code, so the correct second code is
rejected as expired at `419000` (its T + 4:59).  On a fresh key the
boundaries behave as claimed: verification at T + 4:59 succeeds and at
T + 5:01 is expired. -/
theorem stale_timer_expires_superseded_challenge :
    ((processCommand sampleCfg sampleEnv
        (processCommand sampleCfg sampleEnv ⟨[], []⟩ 0 "export-privatekey" Platform.telegram "alice").state
        299000 "export-privatekey 111111" Platform.telegram "alice").reply
      = privateKeyMsg "SECRETKEY")
    ∧ ((processCommand sampleCfg sampleEnv
        (processCommand sampleCfg sampleEnv ⟨[], []⟩ 0 "export-privatekey" Platform.telegram "alice").state
        301000 "export-privatekey 111111" Platform.telegram "alice").reply
      = expiredMsg)
    ∧ ((processCommand sampleCfg sampleEnv
        (processCommand sampleCfg sampleEnv
          (processCommand sampleCfg sampleEnv ⟨[], []⟩ 0 "export-privatekey" Platform.telegram "alice").state
          120000 "export-privatekey" Platform.telegram "alice").state
        419000 "export-privatekey 222222" Platform.telegram "alice").reply
      = expiredMsg) := by
  decide

/-- C7 failing input: a remote rejection of a registry-resolved token
transfer (`USDC`) is reported with the same unknown-token message shape as a
genuinely unknown symbol (`FOO`), and neither message lists the supported
set — the token branch's catch collapses both failure kinds. -/
theorem token_remote_rejection_reported_as_unknown_token :
    (executeTransaction envTokenReject "alice" "bob" 5 "USDC" "discord").1
      = Except.error "Transaction failed: Unknown token: USDC. Please use a supported token symbol."
    ∧ (executeTransaction envTokenReject "alice" "bob" 5 "USDC" "discord").2
      = [LedgerCall.getWalletSocial "discord" "alice",
         LedgerCall.sendTokenToUser "discord" "alice" "discord" "bob"
           "EPjFWdd5AufqSSqeM2qN1xzybapC8G4wEGGkZwyTDt1v" 5 6]
    ∧ (executeTransaction sampleEnv "alice" "bob" 5 "FOO" "discord").1
      = Except.error "Transaction failed: Unknown token: FOO. Please use a supported token symbol."
    ∧ (executeTransaction sampleEnv "alice" "bob" 5 "FOO" "discord").2
      = [LedgerCall.getWalletSocial "discord" "alice"] := by
  decide

theorem calls_platform_append {l₁ l₂ : List LedgerCall}
    (h₁ : ∀ c ∈ l₁, ∀ q ∈ c.platformArgs, q = "discord")
    (h₂ : ∀ c ∈ l₂, ∀ q ∈ c.platformArgs, q = "discord") :
    ∀ c ∈ l₁ ++ l₂, ∀ q ∈ c.platformArgs, q = "discord" := by
  intro c hc
  rcases List.mem_append.mp hc with hm | hm
  · exact h₁ c hm
  · exact h₂ c hm

theorem calls_platform_single {c₀ : LedgerCall}
    (h : ∀ q ∈ c₀.platformArgs, q = "discord") :
    ∀ c ∈ [c₀], ∀ q ∈ c.platformArgs, q = "discord" := by
  intro c hc
  simp only [List.mem_singleton] at hc
  subst hc
  exact h

/-- C10: an unrecognized platform string is silently normalized to
`discord` before any request: the wallet-resolution, creation, and linking
calls are keyed on `discord`, and every platform argument in a transfer's
call trace is `discord`. -/
theorem unrecognized_platform_defaults_to_discord (env : Env)
    (p userId walletPublicKey senderUsername recipientUsername token : String) (amount : ℚ)
    (h : (["twitter", "telegram", "discord"] : List String).contains (strLower p) = false) :
    validatePlatform p = "discord"
    ∧ (getUserWallet env userId p).2 = [LedgerCall.getWalletSocial "discord" userId]
    ∧ (getOrCreateUserWallet env userId p).2 = [LedgerCall.getOrCreateWallet "discord" userId]
    ∧ (linkUserWallet env userId p walletPublicKey).2
        = [LedgerCall.linkWallet "discord" userId walletPublicKey]
    ∧ ∀ c ∈ (executeTransaction env senderUsername recipientUsername amount token p).2,
        ∀ q ∈ c.platformArgs, q = "discord" := by
  have hval : validatePlatform p = "discord" := by
    have hne : ¬(["twitter", "telegram", "discord"] : List String).contains (strLower p) = true := by
      rw [h]
      exact Bool.false_ne_true
    unfold validatePlatform
    rw [if_neg hne]
  refine ⟨hval, by unfold getUserWallet; rw [hval], by unfold getOrCreateUserWallet; rw [hval],
    by unfold linkUserWallet; rw [hval], ?_⟩
  unfold executeTransaction executeTransactionCore getUserWallet getWalletBalance
  dsimp only
  rw [validatePlatform_idem, hval]
  by_cases hs : senderUsername = ""
  · rw [if_pos hs]
    intro c hc
    simp at hc
  rw [if_neg hs]
  by_cases hr : recipientUsername = ""
  · rw [if_pos hr]
    intro c hc
    simp at hc
  rw [if_neg hr]
  by_cases ha : ¬0 < amount
  · rw [if_pos ha]
    intro c hc
    simp at hc
  rw [if_neg ha]
  cases hw : env.walletSocial "discord" senderUsername with
  | none =>
    dsimp only
    exact calls_platform_single (by simp [LedgerCall.platformArgs])
  | some w =>
    dsimp only
    by_cases ht : strUpper token = "SOL"
    · rw [if_pos ht]
      cases hb : env.balance w with
      | error e =>
        dsimp only
        exact calls_platform_append (calls_platform_single (by simp [LedgerCall.platformArgs]))
          (calls_platform_single (by simp [LedgerCall.platformArgs]))
      | ok bal =>
        dsimp only
        by_cases hlt : bal < amount + feeBuffer
        · rw [if_pos hlt]
          exact calls_platform_append (calls_platform_single (by simp [LedgerCall.platformArgs]))
            (calls_platform_single (by simp [LedgerCall.platformArgs]))
        · rw [if_neg hlt]
          cases hsend : env.sendSol "discord" senderUsername "discord" recipientUsername amount with
          | ok r =>
            dsimp only
            exact calls_platform_append
              (calls_platform_append
                (calls_platform_single (by simp [LedgerCall.platformArgs]))
                (calls_platform_single (by simp [LedgerCall.platformArgs])))
              (calls_platform_single (by simp [LedgerCall.platformArgs]))
          | error exc =>
            dsimp only
            exact calls_platform_append
              (calls_platform_append
                (calls_platform_single (by simp [LedgerCall.platformArgs]))
                (calls_platform_single (by simp [LedgerCall.platformArgs])))
              (calls_platform_single (by simp [LedgerCall.platformArgs]))
    · rw [if_neg ht]
      cases hti : getTokenInfo token with
      | error e =>
        dsimp only
        exact calls_platform_single (by simp [LedgerCall.platformArgs])
      | ok ti =>
        dsimp only
        cases hsend : env.sendToken "discord" senderUsername "discord" recipientUsername
            ti.mint amount ti.decimals with
        | ok r =>
          dsimp only
          exact calls_platform_append
            (calls_platform_single (by simp [LedgerCall.platformArgs]))
            (calls_platform_single (by simp [LedgerCall.platformArgs]))
        | error exc =>
          dsimp only
          exact calls_platform_append
            (calls_platform_single (by simp [LedgerCall.platformArgs]))
            (calls_platform_single (by simp [LedgerCall.platformArgs]))

/-- Witness for C1 at a concrete live challenge. -/
theorem export_code_single_use_witness :
    ((processCommand sampleCfg sampleEnv stWithCode 0 "export-privatekey 123456" Platform.telegram "alice").state.codes.lookup
        (codeKey Platform.telegram "alice") = none)
    ∧ (processCommand sampleCfg sampleEnv
        (processCommand sampleCfg sampleEnv stWithCode 0 "export-privatekey 123456" Platform.telegram "alice").state
        1000 "export-privatekey 123456" Platform.telegram "alice").reply = expiredMsg
    ∧ (processCommand sampleCfg sampleEnv
        (processCommand sampleCfg sampleEnv stWithCode 0 "export-privatekey 123456" Platform.telegram "alice").state
        1000 "export-privatekey 123456" Platform.telegram "alice").calls = [] :=
  export_code_single_use sampleCfg sampleEnv sampleEnv stWithCode 0 1000 "alice" "123456"
    (by decide) (by decide)

/-- Witness for C4 at a concrete superseded challenge. -/
theorem second_challenge_supersedes_first_witness :
    ((processCommand sampleCfg sampleEnv
        (processCommand sampleCfg sampleEnv ⟨[], []⟩ 0 "export-privatekey" Platform.telegram "alice").state
        1000 ("export-privatekey " ++ "999999") Platform.telegram "alice").calls = []
      ∧ ((processCommand sampleCfg sampleEnv
          (processCommand sampleCfg sampleEnv ⟨[], []⟩ 0 "export-privatekey" Platform.telegram "alice").state
          1000 ("export-privatekey " ++ "999999") Platform.telegram "alice").reply = invalidCodeMsg
        ∨ (processCommand sampleCfg sampleEnv
          (processCommand sampleCfg sampleEnv ⟨[], []⟩ 0 "export-privatekey" Platform.telegram "alice").state
          1000 ("export-privatekey " ++ "999999") Platform.telegram "alice").reply = expiredMsg))
    ∧ ((processCommand sampleCfg sampleEnv
          (processCommand sampleCfg sampleEnv ⟨[], []⟩ 0 "export-privatekey" Platform.telegram "alice").state
          2000 ("export-privatekey " ++ "111111") Platform.telegram "alice").calls ≠ [] →
        "111111" = sampleEnv.genCode 0) :=
  second_challenge_supersedes_first sampleCfg sampleEnv sampleEnv sampleEnv ⟨[], []⟩ 0 1000 2000
    "alice" "WALLETADDR1" "999999" "111111" (by decide) (by decide) (by decide) (by decide)

/-- Witness for C5 at the spec's concrete balances (0.000004 available,
0.000001 requested, so 0.000006 required). -/
theorem native_transfer_preflight_insufficient_witness :
    executeTransaction envLowBal "alice" "bob" (mkRat 1 1000000) "SOL" "discord"
      = (Except.error (insufficientMsg (mkRat 1 250000) (mkRat 1 1000000 + feeBuffer)),
         [LedgerCall.getWalletSocial (validatePlatform "discord") "alice",
          LedgerCall.getBalance "WALLETADDR1"])
    ∧ insufficientMsg (mkRat 1 250000) (mkRat 1 1000000 + feeBuffer)
      = "Insufficient funds. You have 0.000004 SOL but need at least 0.000006 SOL (including fees)." := by
  have hsum : mkRat 1 1000000 + feeBuffer = mkRat 3 500000 := by
    unfold feeBuffer
    rw [Rat.mkRat_eq_div, Rat.mkRat_eq_div, Rat.mkRat_eq_div]
    norm_num
  refine ⟨native_transfer_preflight_insufficient envLowBal "alice" "bob" "SOL" "discord"
    "WALLETADDR1" (mkRat 1 1000000) (mkRat 1 250000) (by decide) (by decide) (by decide)
    (by decide) (by decide) (by decide) ?_, ?_⟩
  · rw [hsum]
    decide
  · rw [hsum]
    decide

/-- Witness for C6 at a concrete negative amount. -/
theorem send_invalid_amount_rejected_locally_witness :
    (processCommand sampleCfg sampleEnv ⟨[], []⟩ 0 "send @bob -5 SOL" Platform.discord "alice").reply
      = invalidSendMsg
    ∧ (processCommand sampleCfg sampleEnv ⟨[], []⟩ 0 "send @bob -5 SOL" Platform.discord "alice").calls
      = [] :=
  send_invalid_amount_rejected_locally sampleCfg sampleEnv ⟨[], []⟩ 0 "send @bob -5 SOL"
    Platform.discord "alice" "send" ["@bob", "-5", "SOL"] (by decide) (by decide) (by decide)

/-- Witness for the amended C8 at a concrete text. -/
theorem telegram_transport_slash_strip_equiv_witness :
    telegramOnText sampleCfg sampleEnv ⟨[], []⟩ 0 ("/" ++ "help") true "alice"
      = telegramOnText sampleCfg sampleEnv ⟨[], []⟩ 0 "help" true "alice" :=
  telegram_transport_slash_strip_equiv sampleCfg sampleEnv ⟨[], []⟩ 0 "help" true "alice"
    (by decide)

/-- Witness for C9 at a concrete surviving token. -/
theorem mention_tokens_filtered_witness :
    strContains "send" ("@" ++ sampleCfg.twitterBot) = false
    ∧ strContains "send" ("@" ++ sampleCfg.telegramBot) = false
    ∧ strContains "send" ("<@" ++ sampleCfg.discordId ++ ">") = false :=
  mention_tokens_filtered.1 sampleCfg "@TgBot send @alice 2 SOL" "send" (by decide)

/-- Witness for C10 at the platform string `slack`. -/
theorem unrecognized_platform_defaults_to_discord_witness :
    validatePlatform "slack" = "discord"
    ∧ (getUserWallet sampleEnv "alice" "slack").2 = [LedgerCall.getWalletSocial "discord" "alice"]
    ∧ (getOrCreateUserWallet sampleEnv "alice" "slack").2
        = [LedgerCall.getOrCreateWallet "discord" "alice"]
    ∧ (linkUserWallet sampleEnv "alice" "slack" "WALLETX").2
        = [LedgerCall.linkWallet "discord" "alice" "WALLETX"]
    ∧ ∀ c ∈ (executeTransaction sampleEnv "alice" "bob" 1 "SOL" "slack").2,
        ∀ q ∈ c.platformArgs, q = "discord" :=
  unrecognized_platform_defaults_to_discord sampleEnv "slack" "alice" "WALLETX" "alice" "bob"
    "SOL" 1 (by decide)
